import Mathlib

/-
Verification of the model layer of the aggrep news-aggregation API
(aggrep/models.py): a CRUD-convenience mixin over a relational session,
a User entity with password hashing, signed time-limited tokens for
password reset and email confirmation, and small serialisation helpers.

The database session is embedded explicitly: a session holds records
pending insertion, records marked for deletion, and the committed store.
Fallible operations (a commit that the driver may fail) take the outcome
of the underlying commit as an explicit argument of type
Except String Unit and return Except String to model Python exceptions.
-/

set_option autoImplicit false

namespace Aggrep

/-- A Python value as returned by CRUDMixin.delete: either the record
instance, a boolean, or None. -/
inductive PyRet (α : Type) where
| obj (a : α)
| boolean (b : Bool)
| pynone
deriving DecidableEq, Repr

/-- The SQLAlchemy session, specialised to records of one model class:
records added but not yet flushed, records marked for deletion, and the
committed database contents. -/
structure Session (α : Type) where
  pending : List α
  deleting : List α
  committed : List α
deriving DecidableEq, Repr

/-- Committing the session flushes pending additions into the store and
applies pending deletions. -/
def Session.runCommit {α : Type} [DecidableEq α] (s : Session α) : Session α :=
  { pending := []
    deleting := []
    committed := (s.committed ++ s.pending).filter (fun x => ! decide (x ∈ s.deleting)) }

namespace CRUDMixin

/-- CRUDMixin.save: add the record to the session and, when commit is
requested, commit; a driver failure during commit propagates as an
exception (the commitRes argument is the outcome of db.session.commit()). -/
def save {α : Type} [DecidableEq α] (self : α) (commit : Bool)
    (commitRes : Except String Unit) (s : Session α) :
    Except String (Session α × α) :=
  let s1 : Session α := { s with pending := s.pending ++ [self] }
  if commit then
    match commitRes with
    | Except.ok _ => Except.ok (s1.runCommit, self)
    | Except.error e => Except.error e
  else
    Except.ok (s1, self)

/-- CRUDMixin.delete: mark the record for deletion and, when commit is
requested, commit. The Python return value is commit and
db.session.commit(): False when commit is falsy, None otherwise. -/
def delete {α : Type} [DecidableEq α] (self : α) (commit : Bool)
    (commitRes : Except String Unit) (s : Session α) :
    Except String (Session α × PyRet α) :=
  let s1 : Session α := { s with deleting := s.deleting ++ [self] }
  if commit then
    match commitRes with
    | Except.ok _ => Except.ok (s1.runCommit, PyRet.pynone)
    | Except.error e => Except.error e
  else
    Except.ok (s1, PyRet.boolean false)

end CRUDMixin

/-- A generic ORM record for CRUDMixin.create and CRUDMixin.update: the
attribute slots of the instance, each attribute name bound at most once. -/
def Record : Type := List (String × String)

instance : DecidableEq Record := inferInstanceAs (DecidableEq (List (String × String)))

/-- Python getattr on a record: the value bound to the first slot with
the given name. -/
def getattr : Record → String → Option String
| [], _ => none
| (k, v) :: rest, a => if k = a then some v else getattr rest a

/-- Python setattr on a record: rebind the slot with the given name, or
append a fresh slot when the attribute is not yet present. -/
def setattr : Record → String → String → Record
| [], a, v => [(a, v)]
| (k, w) :: rest, a, v =>
  if k = a then (a, v) :: rest else (k, w) :: setattr rest a v

/-- The attribute-assignment loop of CRUDMixin.update and of keyword
construction: for attr, value in kwargs.items(), setattr(self, attr, value). -/
def applyKwargs (self : Record) (kwargs : List (String × String)) : Record :=
  kwargs.foldl (fun r kv => setattr r kv.1 kv.2) self

namespace CRUDMixin

/-- CRUDMixin.update: set each named attribute, then commit and self.save()
or self — with commit the record is saved (and a commit failure
propagates); without commit the session is untouched and the updated
instance is returned. -/
def update (self : Record) (commit : Bool) (kwargs : List (String × String))
    (commitRes : Except String Unit) (s : Session Record) :
    Except String (Session Record × Record) :=
  let self1 := applyKwargs self kwargs
  if commit then
    save self1 true commitRes s
  else
    Except.ok (s, self1)

/-- CRUDMixin.create: instantiate cls(**kwargs) — binding exactly the
supplied keyword attributes — and save it with a commit. -/
def create (kwargs : List (String × String)) (commitRes : Except String Unit)
    (s : Session Record) : Except String (Session Record × Record) :=
  save (applyKwargs [] kwargs) true commitRes s

end CRUDMixin

/-- Modelled from the spec: the signature that aggrep.utils.encode_token
(aggrep/utils.py, not among the sources) places on a token. The spec
describes the two token helpers as standard signed, time-limited token
issuance/verification against a secret key, so the signature is modelled
as an ideal (collision-free) authentication tag binding the secret key,
the token purpose, the payload and the timing data. -/
structure Signature where
  secret : String
  purpose : String
  user_id : Nat
  issued_at : Nat
  expires_in : Nat
deriving DecidableEq, Repr

/-- Modelled from the spec: a signed, time-limited token as issued by
aggrep.utils.encode_token — the purpose, the user id payload, the issue
time, the lifetime in seconds, and the signature over all of them. -/
structure Token where
  purpose : String
  user_id : Nat
  issued_at : Nat
  expires_in : Nat
  signature : Signature
deriving DecidableEq, Repr

/-- Modelled from the spec: computing the authentication tag for the
given purpose, payload, secret key and timing data. -/
def sign_payload (purpose : String) (uid : Nat) (secret : String)
    (issued : Nat) (expires : Nat) : Signature :=
  { secret := secret
    purpose := purpose
    user_id := uid
    issued_at := issued
    expires_in := expires }

/-- Modelled from the spec: aggrep.utils.encode_token(purpose, id, secret,
expires_in) — issue a token at the current time, signed with the secret
key for the stated purpose, expiring after expires_in seconds. -/
def encode_token (purpose : String) (uid : Nat) (secret : String)
    (expires_in : Nat) (timeNow : Nat) : Token :=
  { purpose := purpose
    user_id := uid
    issued_at := timeNow
    expires_in := expires_in
    signature := sign_payload purpose uid secret timeNow expires_in }

/-- Modelled from the spec: aggrep.utils.decode_token(purpose, secret,
token) — return the embedded user id when the signature verifies under
this secret key and purpose and the token has not outlived its lifetime;
return None otherwise, raising no exception. -/
def decode_token (purpose : String) (secret : String) (t : Token)
    (timeNow : Nat) : Option Nat :=
  if t.signature = sign_payload purpose t.user_id secret t.issued_at t.expires_in
      ∧ timeNow ≤ t.issued_at + t.expires_in
  then some t.user_id
  else none

/-- The werkzeug password-hash prefix; the hash of the external
werkzeug.security.generate_password_hash is modelled as an ideal
(injective) hash of the plaintext carrying this method marker. -/
def hash_method_marker : String := "pbkdf2:sha256:260000$salt$"

/-- Modelled contract of werkzeug.security.generate_password_hash
(external dependency): a salted hash string of the plaintext. -/
def generate_password_hash (password : String) : String :=
  hash_method_marker ++ password

/-- Modelled contract of werkzeug.security.check_password_hash (external
dependency): the hash verifies exactly against the plaintext it was
generated from. -/
def check_password_hash (pwhash : String) (password : String) : Bool :=
  pwhash = generate_password_hash password

/-- The User model: primary key, email, optional password hash,
active/confirmed flags, last-seen time, and the two exclusion
collections (stored as lists of Source / Category primary keys). -/
structure User where
  id : Nat
  email : Option String
  password : Option String
  active : Bool
  confirmed : Bool
  last_seen : Option Nat
  excluded_sources : List Nat
  excluded_categories : List Nat
deriving DecidableEq, Repr

/-- User.query.get(id): primary-key lookup in the committed user table. -/
def query_get (d : List User) (i : Nat) : Option User :=
  d.find? (fun u => u.id == i)

namespace User

/-- User.set_password: store the hash of the plaintext and self.save()
(with the default commit). -/
def set_password (u : User) (password : String)
    (commitRes : Except String Unit) (s : Session User) :
    Except String (Session User × User) :=
  let u1 : User := { u with password := some (generate_password_hash password) }
  CRUDMixin.save u1 true commitRes s

/-- User.check_password: check the stored hash against the plaintext; a
user with no stored password makes werkzeug fail on None, modelled as an
exception. -/
def check_password (u : User) (password : String) : Except String Bool :=
  match u.password with
  | none => Except.error "TypeError: expected a hash string, got None"
  | some h => Except.ok (check_password_hash h password)

/-- User.get_user_from_identity: run the email query and return its first
result, but catch every exception and turn it into None. The argument is
the outcome of User.query.filter_by(email=identity).first() at the
database driver. -/
def get_user_from_identity (queryRes : Except String (Option User)) :
    Option User :=
  match queryRes with
  | Except.ok r => r
  | Except.error _ => none

/-- User.get_reset_password_token: a token for purpose reset_password
expiring in 60 * 15 seconds, signed with the configured secret key. -/
def get_reset_password_token (u : User) (secret : String) (timeNow : Nat) :
    Token :=
  encode_token "reset_password" u.id secret (60 * 15) timeNow

/-- User.verify_reset_password_token: decode under purpose reset_password
and the configured secret key; on success look the user up by primary
key, otherwise return None. -/
def verify_reset_password_token (d : List User) (secret : String)
    (token : Token) (timeNow : Nat) : Option User :=
  match decode_token "reset_password" secret token timeNow with
  | none => none
  | some i => query_get d i

/-- User.get_email_confirm_token: a token for purpose email_confirm
expiring in 60 * 60 * 24 seconds, signed with the configured secret key. -/
def get_email_confirm_token (u : User) (secret : String) (timeNow : Nat) :
    Token :=
  encode_token "email_confirm" u.id secret (60 * 60 * 24) timeNow

/-- User.verify_email_confirm_token: decode under purpose email_confirm
and the configured secret key; on success look the user up by primary
key, otherwise return None. -/
def verify_email_confirm_token (d : List User) (secret : String)
    (token : Token) (timeNow : Nat) : Option User :=
  match decode_token "email_confirm" secret token timeNow with
  | none => none
  | some i => query_get d i

/-- User.update_excluded_categories: replace the excluded-categories
collection and self.save(). -/
def update_excluded_categories (u : User) (categories : List Nat)
    (commitRes : Except String Unit) (s : Session User) :
    Except String (Session User × User) :=
  let u1 : User := { u with excluded_categories := categories }
  CRUDMixin.save u1 true commitRes s

/-- User.update_excluded_sources: replace the excluded-sources collection
and self.save(). -/
def update_excluded_sources (u : User) (sources : List Nat)
    (commitRes : Except String Unit) (s : Session User) :
    Except String (Session User × User) :=
  let u1 : User := { u with excluded_sources := sources }
  CRUDMixin.save u1 true commitRes s

end User

/-- A Python dictionary value appearing in User.to_dict. -/
inductive PyVal where
| str (s : String)
| boolean (b : Bool)
| pynone
deriving DecidableEq, Repr

/-- User.to_dict: dict(email=self.email, confirmed=self.confirmed). -/
def User.to_dict (u : User) : List (String × PyVal) :=
  [("email", match u.email with
             | some e => PyVal.str e
             | none => PyVal.pynone),
   ("confirmed", PyVal.boolean u.confirmed)]

/-- A fixed sample user for concrete instantiations. -/
def user_ex : User :=
  { id := 7
    email := some "pat@example.org"
    password := none
    active := true
    confirmed := false
    last_seen := none
    excluded_sources := []
    excluded_categories := [] }

/-- A second sample user agreeing with the first on email and confirmed
but differing on the password hash and other fields. -/
def user_ex2 : User :=
  { user_ex with password := some "pbkdf2:zzz", last_seen := some 99, id := 8 }

/-- Appending to a fixed string on the left is injective. -/
theorem string_append_left_cancel (a p q : String) (h : a ++ p = a ++ q) :
    p = q := by
  have hd : (a ++ p).data = (a ++ q).data := congrArg String.data h
  simp [String.data_append] at hd
  exact String.ext hd

/-- Reading back the attribute just set yields the value set. -/
theorem getattr_setattr_same (r : Record) (a v : String) :
    getattr (setattr r a v) a = some v := by
  induction r with
  | nil => simp [setattr, getattr]
  | cons kv rest ih =>
    obtain ⟨k, w⟩ := kv
    by_cases hk : k = a
    · simp [setattr, hk, getattr]
    · simp [setattr, hk, getattr, ih]

/-- Setting one attribute leaves every other attribute unchanged. -/
theorem getattr_setattr_ne (r : Record) (a v b : String) (hb : b ≠ a) :
    getattr (setattr r a v) b = getattr r b := by
  induction r with
  | nil => simp [setattr, getattr, Ne.symm hb]
  | cons kv rest ih =>
    obtain ⟨k, w⟩ := kv
    by_cases hk : k = a
    · subst hk
      simp [setattr, getattr, Ne.symm hb]
    · simp [setattr, hk, getattr, ih]

/-- The attribute-assignment loop leaves attributes outside the keyword
set unchanged. -/
theorem getattr_applyKwargs_not_mem (kwargs : List (String × String))
    (r : Record) (a : String) (ha : a ∉ kwargs.map Prod.fst) :
    getattr (applyKwargs r kwargs) a = getattr r a := by
  induction kwargs generalizing r with
  | nil => rfl
  | cons kv rest ih =>
    simp only [List.map_cons, List.mem_cons, not_or] at ha
    have step : applyKwargs r (kv :: rest) = applyKwargs (setattr r kv.1 kv.2) rest := rfl
    rw [step, ih (setattr r kv.1 kv.2) ha.2, getattr_setattr_ne r kv.1 kv.2 a ha.1]

/-- With distinct keyword names, the attribute-assignment loop binds each
named attribute to its supplied value. -/
theorem getattr_applyKwargs_mem (kwargs : List (String × String))
    (r : Record) (a v : String) (hnd : (kwargs.map Prod.fst).Nodup)
    (hmem : (a, v) ∈ kwargs) :
    getattr (applyKwargs r kwargs) a = some v := by
  induction kwargs generalizing r with
  | nil => cases hmem
  | cons kv rest ih =>
    simp only [List.map_cons, List.nodup_cons] at hnd
    have step : applyKwargs r (kv :: rest) = applyKwargs (setattr r kv.1 kv.2) rest := rfl
    rcases List.mem_cons.mp hmem with heq | htail
    · subst heq
      rw [step, getattr_applyKwargs_not_mem rest (setattr r a v) a hnd.1,
        getattr_setattr_same]
    · rw [step]
      exact ih (setattr r kv.1 kv.2) hnd.2 htail

/-- C1: for every user and plaintext p, after User.set_password(p) the
method User.check_password returns True on p and False on every
plaintext q distinct from p. -/
theorem set_password_then_check (u : User) (p q : String)
    (s : Session User) (hpq : q ≠ p) :
    ∃ s1 u1, User.set_password u p (Except.ok ()) s = Except.ok (s1, u1)
      ∧ u1.check_password p = Except.ok true
      ∧ u1.check_password q = Except.ok false := by
  refine ⟨_, _, rfl, ?_, ?_⟩
  · simp [User.set_password, CRUDMixin.save, User.check_password, check_password_hash]
  · have hne : generate_password_hash p ≠ generate_password_hash q := by
      intro h
      exact hpq (string_append_left_cancel hash_method_marker p q h).symm
    simp [User.set_password, CRUDMixin.save, User.check_password,
      check_password_hash, hne]

/-- Witness for C1 at a concrete user and passwords. -/
theorem set_password_then_check_witness :
    ∃ s1 u1, User.set_password user_ex "hunter2" (Except.ok ()) ⟨[], [], []⟩
        = Except.ok (s1, u1)
      ∧ u1.check_password "hunter2" = Except.ok true
      ∧ u1.check_password "letmein" = Except.ok false :=
  set_password_then_check user_ex "hunter2" "letmein" ⟨[], [], []⟩ (by decide)

/-- C2: a reset-password token (15 minute lifetime) or email-confirm
token (24 hour lifetime) verifies to the issuing user at any time up to
its expiry and verifies to None at any time past it. -/
theorem tokens_verify_before_expiry_and_fail_after
    (u : User) (d : List User) (secret : String) (t0 tv : Nat)
    (hu : query_get d u.id = some u) :
    (tv ≤ t0 + 60 * 15 →
      User.verify_reset_password_token d secret
        (u.get_reset_password_token secret t0) tv = some u)
    ∧ (t0 + 60 * 15 < tv →
      User.verify_reset_password_token d secret
        (u.get_reset_password_token secret t0) tv = none)
    ∧ (tv ≤ t0 + 60 * 60 * 24 →
      User.verify_email_confirm_token d secret
        (u.get_email_confirm_token secret t0) tv = some u)
    ∧ (t0 + 60 * 60 * 24 < tv →
      User.verify_email_confirm_token d secret
        (u.get_email_confirm_token secret t0) tv = none) := by
  refine ⟨fun h => ?_, fun h => ?_, fun h => ?_, fun h => ?_⟩
  · simp [User.verify_reset_password_token, User.get_reset_password_token,
      decode_token, encode_token, sign_payload, h, hu]
  · simp [User.verify_reset_password_token, User.get_reset_password_token,
      decode_token, encode_token, sign_payload, Nat.not_le.mpr h]
  · simp [User.verify_email_confirm_token, User.get_email_confirm_token,
      decode_token, encode_token, sign_payload, h, hu]
  · simp [User.verify_email_confirm_token, User.get_email_confirm_token,
      decode_token, encode_token, sign_payload, Nat.not_le.mpr h]

/-- Witness for C2: a concrete user, database and secret, with one
verification time inside and one past each lifetime. -/
theorem tokens_verify_before_expiry_and_fail_after_witness :
    User.verify_reset_password_token [user_ex] "s3cret"
      (user_ex.get_reset_password_token "s3cret" 0) 10 = some user_ex
    ∧ User.verify_reset_password_token [user_ex] "s3cret"
      (user_ex.get_reset_password_token "s3cret" 0) 901 = none
    ∧ User.verify_email_confirm_token [user_ex] "s3cret"
      (user_ex.get_email_confirm_token "s3cret" 0) 10 = some user_ex
    ∧ User.verify_email_confirm_token [user_ex] "s3cret"
      (user_ex.get_email_confirm_token "s3cret" 0) 86401 = none :=
  ⟨(tokens_verify_before_expiry_and_fail_after user_ex [user_ex] "s3cret" 0 10
      (by decide)).1 (by decide),
   (tokens_verify_before_expiry_and_fail_after user_ex [user_ex] "s3cret" 0 901
      (by decide)).2.1 (by decide),
   (tokens_verify_before_expiry_and_fail_after user_ex [user_ex] "s3cret" 0 10
      (by decide)).2.2.1 (by decide),
   (tokens_verify_before_expiry_and_fail_after user_ex [user_ex] "s3cret" 0 86401
      (by decide)).2.2.2 (by decide)⟩

/-- C3: a token that is not validly signed for the given purpose and
secret, or that is expired, makes both verifiers return None; the
verifiers are total functions, so no exception escapes. -/
theorem invalid_or_expired_tokens_rejected
    (d : List User) (secret : String) (t : Token) (timeNow : Nat) :
    (¬ (t.signature
          = sign_payload "reset_password" t.user_id secret t.issued_at t.expires_in
        ∧ timeNow ≤ t.issued_at + t.expires_in) →
      User.verify_reset_password_token d secret t timeNow = none)
    ∧ (¬ (t.signature
          = sign_payload "email_confirm" t.user_id secret t.issued_at t.expires_in
        ∧ timeNow ≤ t.issued_at + t.expires_in) →
      User.verify_email_confirm_token d secret t timeNow = none) := by
  constructor
  · intro h
    simp [User.verify_reset_password_token, decode_token, h]
  · intro h
    simp [User.verify_email_confirm_token, decode_token, h]

/-- A token whose signature was produced under a different secret key
than the verifier uses: a tampered or forged token. -/
def tampered_token : Token :=
  { purpose := "reset_password"
    user_id := 7
    issued_at := 0
    expires_in := 900
    signature := sign_payload "reset_password" 7 "otherkey" 0 900 }

/-- Witness for C3 at the concrete tampered token. -/
theorem invalid_or_expired_tokens_rejected_witness :
    User.verify_reset_password_token [user_ex] "s3cret" tampered_token 0 = none
    ∧ User.verify_email_confirm_token [user_ex] "s3cret" tampered_token 0 = none :=
  ⟨(invalid_or_expired_tokens_rejected [user_ex] "s3cret" tampered_token 0).1
      (by decide),
   (invalid_or_expired_tokens_rejected [user_ex] "s3cret" tampered_token 0).2
      (by decide)⟩

/-- C5: a token issued under one secret key is rejected by both
verifiers whenever verification runs under a different secret key. -/
theorem token_rejected_under_different_secret
    (u : User) (d : List User) (k1 k2 : String) (t0 tv : Nat) (hne : k2 ≠ k1) :
    User.verify_reset_password_token d k2
      (u.get_reset_password_token k1 t0) tv = none
    ∧ User.verify_email_confirm_token d k2
      (u.get_email_confirm_token k1 t0) tv = none := by
  constructor
  · simp [User.verify_reset_password_token, User.get_reset_password_token,
      decode_token, encode_token, sign_payload, Signature.mk.injEq,
      hne, Ne.symm hne]
  · simp [User.verify_email_confirm_token, User.get_email_confirm_token,
      decode_token, encode_token, sign_payload, Signature.mk.injEq,
      hne, Ne.symm hne]

/-- Witness for C5 at two concrete distinct secret keys. -/
theorem token_rejected_under_different_secret_witness :
    User.verify_reset_password_token [user_ex] "key2"
      (user_ex.get_reset_password_token "key1" 0) 10 = none
    ∧ User.verify_email_confirm_token [user_ex] "key2"
      (user_ex.get_email_confirm_token "key1" 0) 10 = none :=
  token_rejected_under_different_secret user_ex [user_ex] "key1" "key2" 0 10
    (by decide)

/-- C4 counterexample: User.get_user_from_identity does not propagate a
database driver exception — it converts it into the ordinary return
value None, indistinguishable from a successful query that matched no
user. This refutes the claim that no model-layer operation suppresses a
driver exception or converts it into a return value. -/
theorem get_user_from_identity_swallows_driver_error :
    User.get_user_from_identity
        (Except.error "OperationalError: server closed the connection") = none
    ∧ User.get_user_from_identity
        (Except.error "OperationalError: server closed the connection")
      = User.get_user_from_identity (Except.ok none) :=
  ⟨rfl, rfl⟩

/-- C4 (amended): the CRUD operations save, delete, update and create
propagate a commit failure of the driver as the driver exception, but
User.get_user_from_identity catches every exception and returns None. -/
theorem crud_errors_propagate_except_identity_lookup
    (α : Type) [DecidableEq α] (self : α) (s : Session α)
    (r : Record) (kwargs : List (String × String)) (srec : Session Record)
    (e : String) :
    CRUDMixin.save self true (Except.error e) s = Except.error e
    ∧ CRUDMixin.delete self true (Except.error e) s = Except.error e
    ∧ CRUDMixin.update r true kwargs (Except.error e) srec = Except.error e
    ∧ CRUDMixin.create kwargs (Except.error e) srec = Except.error e
    ∧ User.get_user_from_identity (Except.error e) = none :=
  ⟨rfl, rfl, rfl, rfl, rfl⟩

/-- C6: create(**kwargs) persists a record whose attributes read back as
exactly the supplied keyword values. -/
theorem create_then_read_roundtrip
    (kwargs : List (String × String)) (s : Session Record)
    (hnd : (kwargs.map Prod.fst).Nodup) (hdel : s.deleting = []) :
    ∃ s1 r, CRUDMixin.create kwargs (Except.ok ()) s = Except.ok (s1, r)
      ∧ r ∈ s1.committed
      ∧ ∀ a v, (a, v) ∈ kwargs → getattr r a = some v := by
  refine ⟨_, _, rfl, ?_, ?_⟩
  · simp [CRUDMixin.create, CRUDMixin.save, Session.runCommit, hdel]
  · intro a v hav
    exact getattr_applyKwargs_mem kwargs [] a v hnd hav

/-- Witness for C6 at concrete keyword arguments and an empty session. -/
theorem create_then_read_roundtrip_witness :
    ∃ s1 r, CRUDMixin.create [("slug", "tech"), ("title", "Technology")]
        (Except.ok ()) ⟨[], [], []⟩ = Except.ok (s1, r)
      ∧ r ∈ s1.committed
      ∧ ∀ a v, (a, v) ∈ [("slug", "tech"), ("title", "Technology")] →
          getattr r a = some v :=
  create_then_read_roundtrip [("slug", "tech"), ("title", "Technology")]
    ⟨[], [], []⟩ (by decide) rfl

/-- C7: update(**kwargs) rebinds exactly the named attributes and leaves
every other attribute unchanged, and update_excluded_categories /
update_excluded_sources replace only their collection, leaving email,
password, active, confirmed, last_seen and the other collection
unchanged. -/
theorem mutators_touch_only_their_targets
    (r : Record) (kwargs : List (String × String))
    (commitRes : Except String Unit) (s : Session Record)
    (u : User) (cats srcs : List Nat) (su : Session User) :
    (∀ a, a ∉ kwargs.map Prod.fst →
      getattr (applyKwargs r kwargs) a = getattr r a)
    ∧ ((kwargs.map Prod.fst).Nodup → ∀ a v, (a, v) ∈ kwargs →
      getattr (applyKwargs r kwargs) a = some v)
    ∧ (∃ s1, CRUDMixin.update r true kwargs (Except.ok ()) s
        = Except.ok (s1, applyKwargs r kwargs))
    ∧ CRUDMixin.update r false kwargs commitRes s
        = Except.ok (s, applyKwargs r kwargs)
    ∧ (∃ s2 u2, User.update_excluded_categories u cats (Except.ok ()) su
          = Except.ok (s2, u2)
        ∧ u2.email = u.email ∧ u2.password = u.password ∧ u2.active = u.active
        ∧ u2.confirmed = u.confirmed ∧ u2.last_seen = u.last_seen
        ∧ u2.excluded_sources = u.excluded_sources
        ∧ u2.excluded_categories = cats)
    ∧ (∃ s3 u3, User.update_excluded_sources u srcs (Except.ok ()) su
          = Except.ok (s3, u3)
        ∧ u3.email = u.email ∧ u3.password = u.password ∧ u3.active = u.active
        ∧ u3.confirmed = u.confirmed ∧ u3.last_seen = u.last_seen
        ∧ u3.excluded_categories = u.excluded_categories
        ∧ u3.excluded_sources = srcs) := by
  refine ⟨?_, ?_, ⟨_, rfl⟩, rfl, ⟨_, _, rfl, rfl, rfl, rfl, rfl, rfl, rfl, rfl⟩,
    ⟨_, _, rfl, rfl, rfl, rfl, rfl, rfl, rfl, rfl⟩⟩
  · intro a ha
    exact getattr_applyKwargs_not_mem kwargs r a ha
  · intro hnd a v hav
    exact getattr_applyKwargs_mem kwargs r a v hnd hav

/-- Witness for C7 at a concrete record, keyword set and user. -/
theorem mutators_touch_only_their_targets_witness :
    getattr (applyKwargs [("slug", "x")] [("title", "T")]) "slug"
      = getattr [("slug", "x")] "slug"
    ∧ getattr (applyKwargs [("slug", "x")] [("title", "T")]) "title" = some "T"
    ∧ (∃ s2 u2, User.update_excluded_categories user_ex [3, 4] (Except.ok ())
          ⟨[], [], []⟩ = Except.ok (s2, u2)
        ∧ u2.email = user_ex.email ∧ u2.password = user_ex.password
        ∧ u2.active = user_ex.active ∧ u2.confirmed = user_ex.confirmed
        ∧ u2.last_seen = user_ex.last_seen
        ∧ u2.excluded_sources = user_ex.excluded_sources
        ∧ u2.excluded_categories = [3, 4]) := by
  have h := mutators_touch_only_their_targets [("slug", "x")] [("title", "T")]
    (Except.ok ()) ⟨[], [], []⟩ user_ex [3, 4] [] ⟨[], [], []⟩
  exact ⟨h.1 "slug" (by decide), h.2.1 (by decide) "title" "T" (by decide),
    h.2.2.2.2.1⟩

/-- C8: delete without commit marks the record deleted in the session,
returns the boolean False and never consults the commit; delete with
commit removes the record from the committed store and returns None;
save and update without commit return the instance and never consult
the commit. -/
theorem commit_flag_semantics
    (α : Type) [DecidableEq α] (self : α) (s : Session α)
    (commitRes : Except String Unit)
    (r : Record) (kwargs : List (String × String)) (srec : Session Record) :
    CRUDMixin.delete self false commitRes s
      = Except.ok ({ s with deleting := s.deleting ++ [self] },
          PyRet.boolean false)
    ∧ (∃ s1, CRUDMixin.delete self true (Except.ok ()) s
          = Except.ok (s1, PyRet.pynone)
        ∧ self ∉ s1.committed)
    ∧ CRUDMixin.save self false commitRes s
      = Except.ok ({ s with pending := s.pending ++ [self] }, self)
    ∧ CRUDMixin.update r false kwargs commitRes srec
      = Except.ok (srec, applyKwargs r kwargs) := by
  refine ⟨rfl, ⟨_, rfl, ?_⟩, rfl, rfl⟩
  intro hmem
  simp [CRUDMixin.delete, Session.runCommit, List.mem_filter] at hmem

/-- C9: User.to_dict depends only on email and confirmed — two users
agreeing there serialise identically — and its keys are exactly email
and confirmed, never the password hash. -/
theorem to_dict_exposes_only_email_and_confirmed
    (u1 u2 : User) (he : u1.email = u2.email) (hc : u1.confirmed = u2.confirmed) :
    u1.to_dict = u2.to_dict
    ∧ u1.to_dict.map Prod.fst = ["email", "confirmed"]
    ∧ "password" ∉ u1.to_dict.map Prod.fst := by
  refine ⟨?_, rfl, ?_⟩
  · simp [User.to_dict, he, hc]
  · show "password" ∉ (["email", "confirmed"] : List String)
    decide

/-- Witness for C9: two concrete users differing in password hash, id
and last_seen but agreeing on email and confirmed. -/
theorem to_dict_exposes_only_email_and_confirmed_witness :
    user_ex.to_dict = user_ex2.to_dict
    ∧ user_ex.to_dict.map Prod.fst = ["email", "confirmed"]
    ∧ "password" ∉ user_ex.to_dict.map Prod.fst :=
  to_dict_exposes_only_email_and_confirmed user_ex user_ex2 rfl rfl

/-- C10: the two token kinds are mutually exclusive — a reset-password
token is rejected by the email-confirm verifier and an email-confirm
token by the reset-password verifier, even fresh and under the correct
secret key. -/
theorem token_kinds_mutually_exclusive
    (u : User) (d : List User) (secret : String) (t0 tv : Nat) :
    User.verify_email_confirm_token d secret
      (u.get_reset_password_token secret t0) tv = none
    ∧ User.verify_reset_password_token d secret
      (u.get_email_confirm_token secret t0) tv = none := by
  constructor
  · simp [User.verify_email_confirm_token, User.get_reset_password_token,
      decode_token, encode_token, sign_payload, Signature.mk.injEq]
  · simp [User.verify_reset_password_token, User.get_email_confirm_token,
      decode_token, encode_token, sign_payload, Signature.mk.injEq]

end Aggrep
